import Mathlib

/-!
# Verification of the image-worker transform/upload pipeline

Shallow embedding of the request-normalization, transform-planning and
storage-backend code of the repository.  JavaScript numbers that only flow
through the pipeline (never used for floating-point arithmetic) are modelled
as `Rat`; JS truthiness (`undefined`, `0`, `""` falsy) is modelled explicitly.
Optional values are `Option`, thrown exceptions are `Except`, and the I/O and
network calls made by an operation are recorded as explicit traces.
-/

namespace ImageWorker

/-! ## JS value helpers -/

/-- JS truthiness of an optional string: `undefined` and `""` are falsy. -/
def truthyStr : Option String → Bool
  | none => false
  | some s => !s.isEmpty

/-- JS truthiness of an optional number: `undefined` and `0` are falsy. -/
def truthyNum : Option Rat → Bool
  | none => false
  | some q => q != 0

/-- JS truthiness of an optional boolean. -/
def truthyBool : Option Bool → Bool
  | none => false
  | some b => b

/-- JS `a || b` where `a` is an optional string. -/
def jsOrStr (a : Option String) (b : String) : String :=
  if truthyStr a then a.getD "" else b

/-- JS `a || b` where `a` is an optional number. -/
def jsOrNum (a : Option Rat) (b : Rat) : Rat :=
  if truthyNum a then a.getD 0 else b

/-- JS template interpolation of a possibly-undefined string:
`undefined` prints as the text `"undefined"`. -/
def jsTemplate : Option String → String
  | none => "undefined"
  | some s => s

/-! ## Error model (`@modelcontextprotocol/sdk` error codes used by the repo) -/

inductive ErrorCode
  | invalidParams
  | internalError
  deriving DecidableEq, Repr

/-- `McpError` from the MCP SDK: a classified domain error. -/
structure McpError where
  code : ErrorCode
  message : String
  deriving DecidableEq, Repr

/-- A thrown JS value as the repo's catch blocks classify it:
an `McpError`, a zod validation error, or a generic `Error` with a name. -/
inductive JsError
  | mcp (e : McpError)
  | zod (formatted : String)
  | generic (name message : String)
  deriving DecidableEq, Repr

/-- `error.name` (the SDK sets `McpError.name = "McpError"`). -/
def JsError.errName : JsError → String
  | .mcp _ => "McpError"
  | .zod _ => "ZodError"
  | .generic n _ => n

/-- `error.message` as used in the catch blocks for the generic case. -/
def JsError.errMessage : JsError → String
  | .mcp e => e.message
  | .zod f => f
  | .generic _ m => m

/-! ## `src/constants.ts` -/

def SUPPORTED_INPUT_FORMATS : List String :=
  ["jpeg", "jpg", "png", "webp", "avif", "tiff", "gif", "heic", "heif"]

def SUPPORTED_OUTPUT_FORMATS : List String :=
  ["jpeg", "png", "webp", "avif"]

def DEFAULT_QUALITY : Rat := 80

def DEFAULT_WIDTH : Rat := 800

def DEFAULT_HEIGHT : Rat := 600

def SUPPORTED_UPLOAD_SERVICES : List String := ["s3", "cloudflare", "gcloud"]

/-! ## `src/tools/sharp.ts`: the transform tool arguments (`resizeImageSchema`) -/

structure ResizeImageArgs where
  imagePath : Option String := none
  imageUrl : Option String := none
  base64Image : Option String := none
  format : Option String := none
  width : Option Rat := none
  height : Option Rat := none
  quality : Option Rat := none
  fit : Option String := none
  position : Option String := none
  background : Option String := none
  withoutEnlargement : Option Bool := none
  withoutReduction : Option Bool := none
  rotate : Option Rat := none
  flip : Option Bool := none
  flop : Option Bool := none
  grayscale : Option Bool := none
  blur : Option Rat := none
  sharpen : Option Rat := none
  gamma : Option Rat := none
  negate : Option Bool := none
  normalize : Option Bool := none
  threshold : Option Rat := none
  trim : Option Bool := none
  outputImage : Bool := false
  outputPath : Option String := none
  deriving DecidableEq, Repr

/-- An optional number lies in the zod range `min(lo).max(hi)` when present. -/
def optRange (v : Option Rat) (lo hi : Rat) : Bool :=
  match v with
  | none => true
  | some q => lo ≤ q && q ≤ hi

/-- An optional string belongs to a zod enum when present. -/
def optMem (v : Option String) (l : List String) : Bool :=
  match v with
  | none => true
  | some s => l.contains s

/-- The numeric / enum constraints declared by `resizeImageSchema`
(zod validates the arguments before `resizeImageTool` runs). -/
def schemaValid (a : ResizeImageArgs) : Bool :=
  optMem a.format SUPPORTED_OUTPUT_FORMATS &&
  optRange a.width 1 10000 &&
  optRange a.height 1 10000 &&
  optRange a.quality 1 100 &&
  optMem a.fit ["cover", "contain", "fill", "inside", "outside"] &&
  optMem a.position
    ["top", "right top", "right", "right bottom", "bottom", "left bottom", "left", "left top"] &&
  optRange a.blur (3 / 10) 1000 &&
  optRange a.sharpen (3 / 10) 1000 &&
  optRange a.gamma 1 3 &&
  optRange a.threshold 0 255

/-! ## Transform planning (`ImageProcessor.applyResize` / `applyTransformations`) -/

/-- The option object handed to `sharp`'s `.resize(...)` call. -/
structure ResizeOptions where
  width : Option Rat
  height : Option Rat
  fit : Option String
  position : Option String
  background : Option String
  withoutEnlargement : Option Bool
  withoutReduction : Option Bool
  deriving DecidableEq, Repr

/-- The resize geometry resolution of `ImageProcessor.applyResize`, translated
branch for branch (JS truthiness of the width/height numbers and the fit
string included). -/
def resizeOptions (args : ResizeImageArgs) : ResizeOptions :=
  let w0 := args.width
  let h0 := args.height
  let f0 := args.fit
  let whf : Option Rat × Option Rat × Option String :=
    if truthyNum w0 && !truthyNum h0 then
      (w0, none, f0)
    else if !truthyNum w0 && truthyNum h0 then
      (none, h0, f0)
    else
      let w1 := jsOrNum w0 DEFAULT_WIDTH
      let h1 := jsOrNum h0 DEFAULT_HEIGHT
      let f1 := if !truthyStr f0 && w1 != 0 && h1 != 0 then some "contain" else f0
      (some w1, some h1, f1)
  { width := whf.1
    height := whf.2.1
    fit := whf.2.2
    position := args.position
    background := args.background
    withoutEnlargement := args.withoutEnlargement
    withoutReduction := args.withoutReduction }

/-- One filter primitive of the sharp engine as invoked by
`ImageProcessor.applyTransformations`. -/
inductive FilterOp
  | rotate (angle : Rat)
  | flip
  | flop
  | grayscale
  | blur (sigma : Rat)
  | sharpen (sigma : Rat)
  | gamma (g : Rat)
  | negate
  | normalize
  | threshold (t : Rat)
  | trim
  deriving DecidableEq, Repr

/-- An operation queued on a `Sharp` handle. -/
inductive SharpOp
  | resize (opts : ResizeOptions)
  | filter (op : FilterOp)
  deriving DecidableEq, Repr

/-- A `Sharp` handle, modelled as its queued operation chain (oldest first). -/
abbrev Sharp := List SharpOp

/-- `ImageProcessor.applyResize`: queues one `.resize` call with the resolved
geometry. -/
def ImageProcessor.applyResize (args : ResizeImageArgs) (image : Sharp) : Sharp :=
  image ++ [SharpOp.resize (resizeOptions args)]

/-- `ImageProcessor.applyTransformations`, translated if-chain for if-chain:
each truthy argument queues its filter call, in source order. -/
def ImageProcessor.applyTransformations (args : ResizeImageArgs) (image : Sharp) : Sharp :=
  let ti := image
  let ti := if truthyNum args.rotate then ti ++ [SharpOp.filter (.rotate (args.rotate.getD 0))] else ti
  let ti := if truthyBool args.flip then ti ++ [SharpOp.filter .flip] else ti
  let ti := if truthyBool args.flop then ti ++ [SharpOp.filter .flop] else ti
  let ti := if truthyBool args.grayscale then ti ++ [SharpOp.filter .grayscale] else ti
  let ti := if truthyNum args.blur then ti ++ [SharpOp.filter (.blur (args.blur.getD 0))] else ti
  let ti := if truthyNum args.sharpen then ti ++ [SharpOp.filter (.sharpen (args.sharpen.getD 0))] else ti
  let ti := if truthyNum args.gamma then ti ++ [SharpOp.filter (.gamma (args.gamma.getD 0))] else ti
  let ti := if truthyBool args.negate then ti ++ [SharpOp.filter .negate] else ti
  let ti := if truthyBool args.normalize then ti ++ [SharpOp.filter .normalize] else ti
  let ti := if truthyNum args.threshold then ti ++ [SharpOp.filter (.threshold (args.threshold.getD 0))] else ti
  let ti := if truthyBool args.trim then ti ++ [SharpOp.filter .trim] else ti
  ti

/-- The ordered filter list a request contributes (the transformations queued
on a fresh handle). -/
def filterList (args : ResizeImageArgs) : Sharp :=
  ImageProcessor.applyTransformations args []

/-! ## Output encoding (`ImageProcessor.formatOutput`) -/

/-- The codec call issued by `formatOutput`: which sharp encoder ran, at what
quality, and the reported mime type / output format name. -/
structure EncodeResult where
  codec : String
  quality : Rat
  mimeType : String
  outputFormat : String
  deriving DecidableEq, Repr

/-- The format resolution line of `formatOutput`:
`this.args.format || this.inputFormat || "jpeg"`. -/
def resolvedFormat (args : ResizeImageArgs) (inputFormat : Option String) : String :=
  jsOrStr args.format (jsOrStr inputFormat "jpeg")

/-- The quality resolution line of `formatOutput`:
`this.args.quality || DEFAULT_QUALITY`. -/
def resolvedQuality (args : ResizeImageArgs) : Rat :=
  jsOrNum args.quality DEFAULT_QUALITY

/-- `ImageProcessor.formatOutput`: resolves the output format
(`args.format || inputFormat || "jpeg"`) and the quality
(`args.quality || DEFAULT_QUALITY`), then dispatches on the format string
exactly as the source `switch` does (`jpeg` and `jpg` share the jpeg codec). -/
def ImageProcessor.formatOutput (args : ResizeImageArgs) (inputFormat : Option String) :
    Except McpError EncodeResult :=
  let outputFormat := resolvedFormat args inputFormat
  let quality := resolvedQuality args
  if outputFormat = "jpeg" || outputFormat = "jpg" then
    Except.ok { codec := "jpeg", quality := quality, mimeType := "image/jpeg", outputFormat := outputFormat }
  else if outputFormat = "png" then
    Except.ok { codec := "png", quality := quality, mimeType := "image/png", outputFormat := outputFormat }
  else if outputFormat = "webp" then
    Except.ok { codec := "webp", quality := quality, mimeType := "image/webp", outputFormat := outputFormat }
  else if outputFormat = "avif" then
    Except.ok { codec := "avif", quality := quality, mimeType := "image/avif", outputFormat := outputFormat }
  else
    Except.error { code := ErrorCode.invalidParams, message := "Unsupported output format: " ++ outputFormat }

/-! ## `src/utils.ts` -/

/-- One global-regex pass of `normalizeFilePath`: every maximal run of
backslashes immediately followed by `target` collapses to `target`
(JS `str.replace(/\\+X/g, "X")`).  `pending` counts backslashes read so far. -/
def replaceEscapedAux (target : Char) (pending : Nat) : List Char → List Char
  | [] => List.replicate pending '\\'
  | c :: rest =>
    if c = '\\' then replaceEscapedAux target (pending + 1) rest
    else if c = target && pending > 0 then c :: replaceEscapedAux target 0 rest
    else List.replicate pending '\\' ++ (c :: replaceEscapedAux target 0 rest)

def replaceEscaped (target : Char) (s : List Char) : List Char :=
  replaceEscapedAux target 0 s

/-- `normalizeFilePath`: unescapes backslash-escaped space, quote variants,
backtick, parentheses, brackets and braces, in the source's pass order. -/
def normalizeFilePath (filePath : String) : String :=
  let cs := filePath.toList
  let cs := replaceEscaped ' ' cs
  let cs := replaceEscaped (Char.ofNat 39) cs
  let cs := replaceEscaped (Char.ofNat 34) cs
  let cs := replaceEscaped (Char.ofNat 96) cs
  let cs := replaceEscaped '(' cs
  let cs := replaceEscaped ')' cs
  let cs := replaceEscaped '[' cs
  let cs := replaceEscaped ']' cs
  let cs := replaceEscaped (Char.ofNat 123) cs
  let cs := replaceEscaped (Char.ofNat 125) cs
  String.mk cs

/-- JS `String.prototype.split` with a single-character separator, structural
over the character list (never returns an empty list, like JS split). -/
def splitChar (sep : Char) : List Char → List (List Char)
  | [] => [[]]
  | c :: rest =>
    let r := splitChar sep rest
    if c = sep then [] :: r
    else (c :: r.headD []) :: r.tail

/-- JS `s.split(sep)` for a one-character separator. -/
def jsSplit (s : String) (sep : Char) : List String :=
  (splitChar sep s.toList).map String.mk

/-- JS `s.toLowerCase()` (character-wise). -/
def jsToLowerCase (s : String) : String :=
  String.mk (s.toList.map Char.toLower)

/-- JS `s.includes(c)` for a one-character needle. -/
def jsIncludesChar (s : String) (c : Char) : Bool :=
  s.toList.contains c

/-! ## Input resolution -/

/-- An I/O action performed while resolving the input bytes. -/
inductive IOEffect
  | readFile (path : String)
  | httpGet (url : String)
  | decodeBase64
  deriving DecidableEq, Repr

/-- The environment the input resolver runs against:
`fs.readFileSync` (bytes or error text), `fetchImageFromUrl`
(which by construction either returns bytes or throws an `McpError`),
and `base64ToBuffer` (total). -/
structure FetchEnv where
  readFile : String → Except String (List Nat)
  fetchImage : String → Except McpError (List Nat)
  decode64 : String → List Nat

/-- `ImageProcessor.getInputBuffer` (transform tool), with the I/O actions it
performs recorded as a trace. -/
def ImageProcessor.getInputBuffer (env : FetchEnv) (args : ResizeImageArgs) :
    List IOEffect × Except McpError (List Nat) :=
  if !truthyStr args.imagePath && !truthyStr args.imageUrl && !truthyStr args.base64Image then
    ([], Except.error { code := ErrorCode.invalidParams,
                        message := "One of imagePath, imageUrl, or base64Image must be provided" })
  else if truthyStr args.imagePath then
    let p := args.imagePath.getD ""
    let np := normalizeFilePath p
    match env.readFile np with
    | Except.ok bytes => ([IOEffect.readFile np], Except.ok bytes)
    | Except.error msg =>
        ([IOEffect.readFile np],
         Except.error { code := ErrorCode.invalidParams,
                        message := "Failed to read image from path: " ++ p ++ ". " ++ msg })
  else if truthyStr args.imageUrl then
    let u := args.imageUrl.getD ""
    ([IOEffect.httpGet u], env.fetchImage u)
  else if truthyStr args.base64Image then
    ([IOEffect.decodeBase64], Except.ok (env.decode64 (args.base64Image.getD "")))
  else
    ([], Except.error { code := ErrorCode.internalError,
                        message := "No image source provided despite initial validation." })

/-- The `source` kind the transform result reports
(`imagePath ? "file" : imageUrl ? "url" : "base64"`). -/
def ImageProcessor.sourceKind (args : ResizeImageArgs) : String :=
  if truthyStr args.imagePath then "file"
  else if truthyStr args.imageUrl then "url"
  else "base64"

/-! ## The upload tool (`src/tools/upload.ts`) -/

structure UploadImageArgs where
  imagePath : Option String := none
  imageUrl : Option String := none
  base64Image : Option String := none
  service : String := "s3"
  filename : Option String := none
  folder : Option String := none
  public : Bool := true
  overwrite : Bool := false
  tags : Option (List String) := none
  metadata : Option (List (String × String)) := none
  deriving DecidableEq, Repr

/-- `UploadTool.getInputBuffer`: same source selection as the transform tool,
additionally deriving the suggested original filename. -/
def UploadTool.getInputBuffer (env : FetchEnv) (args : UploadImageArgs) :
    List IOEffect × Except McpError (List Nat × Option String) :=
  if !truthyStr args.imagePath && !truthyStr args.imageUrl && !truthyStr args.base64Image then
    ([], Except.error { code := ErrorCode.invalidParams,
                        message := "One of imagePath, imageUrl, or base64Image must be provided" })
  else if truthyStr args.imagePath then
    let p := args.imagePath.getD ""
    let np := normalizeFilePath p
    match env.readFile np with
    | Except.ok bytes =>
        ([IOEffect.readFile np], Except.ok (bytes, (jsSplit np '/').getLast?))
    | Except.error msg =>
        ([IOEffect.readFile np],
         Except.error { code := ErrorCode.invalidParams,
                        message := "Failed to read image from path: " ++ p ++ ". " ++ msg })
  else if truthyStr args.imageUrl then
    let u := args.imageUrl.getD ""
    match env.fetchImage u with
    | Except.ok bytes =>
        ([IOEffect.httpGet u],
         Except.ok (bytes, (jsSplit ((jsSplit u '/').getLastD "") '?').head?))
    | Except.error e => ([IOEffect.httpGet u], Except.error e)
  else if truthyStr args.base64Image then
    ([IOEffect.decodeBase64], Except.ok (env.decode64 (args.base64Image.getD ""), some "image"))
  else
    ([], Except.error { code := ErrorCode.internalError,
                        message := "No image source provided despite initial validation." })

/-- The nondeterministic inputs of `UploadTool.generateFilename`
(`Date.now()` and the random suffix). -/
structure NameEnv where
  timestamp : Nat
  randomSuffix : String
  deriving DecidableEq, Repr

/-- `UploadTool.generateFilename`, JS truthiness included. -/
def UploadTool.generateFilename (nenv : NameEnv) (args : UploadImageArgs)
    (originalFilename : Option String) : String :=
  if truthyStr args.filename then
    let f := args.filename.getD ""
    if jsIncludesChar f '.' then f
    else
      let extPart : Option String := originalFilename.map (fun o => (jsSplit o '.').getLastD "")
      let ext := if truthyStr extPart then extPart.getD "" else "jpg"
      f ++ "." ++ ext
  else if truthyStr originalFilename then originalFilename.getD ""
  else "image_" ++ toString nenv.timestamp ++ "_" ++ nenv.randomSuffix ++ ".jpg"

/-! ## Tool results and the outermost catch boundaries -/

/-- The payload of a tool result: either plain text (the error paths) or the
structured success payload the tool JSON-encodes. -/
inductive ToolOutput
  | text (s : String)
  | transformSuccess (format : String) (size : Nat) (savedTo : Option String) (source : String)
  | uploadSuccess (url filename : String) (size : Nat) (format service : String)
  deriving DecidableEq, Repr

/-- A `CallToolResult` as the tools build it. -/
structure CallToolResult where
  output : ToolOutput
  isError : Bool := false
  deriving DecidableEq, Repr

/-- The catch clauses of `ImageProcessor.exec`: zod errors and generic errors
become non-throwing `isError` results, an `McpError` is re-thrown unchanged. -/
def ImageProcessor.execBoundary (body : Except JsError CallToolResult) :
    Except McpError CallToolResult :=
  match body with
  | Except.ok r => Except.ok r
  | Except.error (JsError.zod f) =>
      Except.ok { output := ToolOutput.text ("Validation error: " ++ f), isError := true }
  | Except.error (JsError.mcp e) => Except.error e
  | Except.error e =>
      Except.ok { output := ToolOutput.text ("Error processing image: " ++ e.errMessage),
                  isError := true }

/-- The catch clauses of `UploadTool.exec` (same shape, upload wording). -/
def UploadTool.execBoundary (body : Except JsError CallToolResult) :
    Except McpError CallToolResult :=
  match body with
  | Except.ok r => Except.ok r
  | Except.error (JsError.zod f) =>
      Except.ok { output := ToolOutput.text ("Validation error: " ++ f), isError := true }
  | Except.error (JsError.mcp e) => Except.error e
  | Except.error e =>
      Except.ok { output := ToolOutput.text ("Error uploading image: " ++ e.errMessage),
                  isError := true }

/-! ## Storage backend adapters (`src/services/s3.ts`, `cloudflare.ts`,
`gcloud.ts`) -/

/-- The normalized service configuration (`UploadServiceConfig`). -/
structure UploadServiceConfig where
  service : String := "s3"
  apiKey : Option String := none
  apiSecret : Option String := none
  bucket : Option String := none
  region : Option String := none
  endpoint : Option String := none
  baseUrl : Option String := none
  projectId : Option String := none
  deriving DecidableEq, Repr

/-- Object key: `args.folder ? folder + "/" + filename : filename`
(identical in all three services). -/
def objectKey (folder : Option String) (filename : String) : String :=
  if truthyStr folder then folder.getD "" ++ "/" ++ filename else filename

/-- Extension computation, identical in all three services:
`parts = filename.split(".")`;
`parts.length > 1 ? parts.pop().toLowerCase() || "jpg" : "jpg"`. -/
def fileExtensionOf (filename : String) : String :=
  let parts := jsSplit filename '.'
  if parts.length > 1 then
    let e := jsToLowerCase (parts.getLastD "")
    if e.isEmpty then "jpg" else e
  else "jpg"

/-- `getContentType`: the fixed extension → mime lookup table, identical in
all three services. -/
def getContentType (extension : String) : String :=
  if extension = "jpg" then "image/jpeg"
  else if extension = "jpeg" then "image/jpeg"
  else if extension = "png" then "image/png"
  else if extension = "gif" then "image/gif"
  else if extension = "webp" then "image/webp"
  else if extension = "avif" then "image/avif"
  else if extension = "tiff" then "image/tiff"
  else if extension = "heic" then "image/heic"
  else if extension = "heif" then "image/heif"
  else "application/octet-stream"

/-- `S3UploadService.generateUrl`. -/
def S3UploadService.generateUrl (config : UploadServiceConfig) (key : String) : String :=
  if truthyStr config.endpoint then
    jsTemplate config.endpoint ++ "/" ++ jsTemplate config.bucket ++ "/" ++ key
  else
    "https://" ++ jsTemplate config.bucket ++ ".s3." ++ jsTemplate config.region ++
      ".amazonaws.com/" ++ key

/-- `CloudflareUploadService.generateUrl`. -/
def CloudflareUploadService.generateUrl (config : UploadServiceConfig) (key : String) : String :=
  if truthyStr config.baseUrl then
    jsTemplate config.baseUrl ++ "/" ++ key
  else
    jsTemplate config.endpoint ++ "/" ++ jsTemplate config.bucket ++ "/" ++ key

/-- `GCloudUploadService.generateUrl`. -/
def GCloudUploadService.generateUrl (config : UploadServiceConfig) (key : String) : String :=
  "https://storage.googleapis.com/" ++ jsTemplate config.bucket ++ "/" ++ key

/-- One network call of an upload.  ACL / tagging / metadata extras of the put
are not inspected by any claim and are elided from the call record. -/
inductive UploadCall
  | headObject (bucket key : String)
  | putObject (bucket key contentType : String)
  | existsQuery (bucket key : String)
  | save (bucket key contentType : String) (isPublic : Bool)
  deriving DecidableEq, Repr

/-- The fields of a successful S3 `PutObjectCommand` response used by the code. -/
structure PutResponse where
  etag : Option String := none
  versionId : Option String := none
  deriving DecidableEq, Repr

/-- What the existence probe (`HeadObjectCommand` send) does:
succeed (the object exists) or throw an error carrying a name. -/
inductive ProbeOutcome
  | ok
  | errNamed (name message : String)
  deriving DecidableEq, Repr

/-- Backend behaviour an S3-compatible upload runs against. -/
structure S3Env where
  head : ProbeOutcome
  put : Except (String × String) PutResponse

/-- The result record an upload returns. -/
structure UploadResult where
  url : String
  filename : String
  size : Nat
  format : String
  service : String
  metaBucket : Option String := none
  metaKey : Option String := none
  metaRegion : Option String := none
  metaEndpoint : Option String := none
  metaProjectId : Option String := none
  etag : Option String := none
  versionId : Option String := none
  deriving DecidableEq, Repr

/-- The overwrite guard shared by `S3UploadService.upload` and
`CloudflareUploadService.upload`: when `overwrite` is falsy, send a HEAD;
a successful HEAD throws the already-exists `McpError`, which the inner catch
re-throws (its name is `"McpError"`); a HEAD error is swallowed only when
named `NotFound` or `NoSuchKey`. -/
def s3OverwriteGuard (bucket key : String) (overwrite : Bool) (head : ProbeOutcome) :
    List UploadCall × Except JsError Unit :=
  if !overwrite then
    let thrown : JsError :=
      match head with
      | ProbeOutcome.ok =>
          JsError.mcp { code := ErrorCode.invalidParams,
                        message := "File " ++ key ++ " already exists. Set overwrite=true to replace it." }
      | ProbeOutcome.errNamed n m => JsError.generic n m
    if thrown.errName != "NotFound" && thrown.errName != "NoSuchKey" then
      ([UploadCall.headObject bucket key], Except.error thrown)
    else
      ([UploadCall.headObject bucket key], Except.ok ())
  else ([], Except.ok ())

/-- The outer catch of `S3UploadService.upload`: re-throw `McpError` unchanged,
wrap anything else as `InternalError`. -/
def s3Wrap {α : Type} : Except JsError α → Except McpError α
  | Except.ok a => Except.ok a
  | Except.error (JsError.mcp e) => Except.error e
  | Except.error e =>
      Except.error { code := ErrorCode.internalError,
                     message := "S3 upload failed: " ++ e.errMessage }

/-- `S3UploadService.upload`, with its network calls as a trace. -/
def S3UploadService.upload (config : UploadServiceConfig) (env : S3Env)
    (bufferSize : Nat) (filename : String) (args : UploadImageArgs) :
    List UploadCall × Except McpError UploadResult :=
  let key := objectKey args.folder filename
  let fileExtension := fileExtensionOf filename
  let contentType := getContentType fileExtension
  let bucket := config.bucket.getD ""
  let guard := s3OverwriteGuard bucket key args.overwrite env.head
  match guard.2 with
  | Except.error e => (guard.1, s3Wrap (Except.error e))
  | Except.ok _ =>
    match env.put with
    | Except.error nm =>
        (guard.1 ++ [UploadCall.putObject bucket key contentType],
         s3Wrap (Except.error (JsError.generic nm.1 nm.2)))
    | Except.ok resp =>
        (guard.1 ++ [UploadCall.putObject bucket key contentType],
         Except.ok { url := S3UploadService.generateUrl config key
                     filename := filename
                     size := bufferSize
                     format := fileExtension
                     service := "s3"
                     metaBucket := config.bucket
                     metaKey := some key
                     metaRegion := config.region
                     etag := resp.etag
                     versionId := resp.versionId })

/-- The outer catch of `CloudflareUploadService.upload`. -/
def cloudflareWrap {α : Type} : Except JsError α → Except McpError α
  | Except.ok a => Except.ok a
  | Except.error (JsError.mcp e) => Except.error e
  | Except.error e =>
      Except.error { code := ErrorCode.internalError,
                     message := "Cloudflare R2 upload failed: " ++ e.errMessage }

/-- `CloudflareUploadService.upload`: same algorithm as the S3 adapter
(no ACL / tagging on the put — an R2 limitation), R2 URL rule and
endpoint-flavoured result metadata. -/
def CloudflareUploadService.upload (config : UploadServiceConfig) (env : S3Env)
    (bufferSize : Nat) (filename : String) (args : UploadImageArgs) :
    List UploadCall × Except McpError UploadResult :=
  let key := objectKey args.folder filename
  let fileExtension := fileExtensionOf filename
  let contentType := getContentType fileExtension
  let bucket := config.bucket.getD ""
  let guard := s3OverwriteGuard bucket key args.overwrite env.head
  match guard.2 with
  | Except.error e => (guard.1, cloudflareWrap (Except.error e))
  | Except.ok _ =>
    match env.put with
    | Except.error nm =>
        (guard.1 ++ [UploadCall.putObject bucket key contentType],
         cloudflareWrap (Except.error (JsError.generic nm.1 nm.2)))
    | Except.ok resp =>
        (guard.1 ++ [UploadCall.putObject bucket key contentType],
         Except.ok { url := CloudflareUploadService.generateUrl config key
                     filename := filename
                     size := bufferSize
                     format := fileExtension
                     service := "cloudflare"
                     metaBucket := config.bucket
                     metaKey := some key
                     metaEndpoint := config.endpoint
                     etag := resp.etag
                     versionId := resp.versionId })

/-- Backend behaviour a GCS upload runs against: `file.exists()` resolves to
an existence flag or throws, `file.save(...)` succeeds or throws. -/
structure GCloudEnv where
  existsRes : Except (String × String) Bool
  save : Except (String × String) Unit

/-- The outer catch of `GCloudUploadService.upload`. -/
def gcloudWrap {α : Type} : Except JsError α → Except McpError α
  | Except.ok a => Except.ok a
  | Except.error (JsError.mcp e) => Except.error e
  | Except.error e =>
      Except.error { code := ErrorCode.internalError,
                     message := "GCloud upload failed: " ++ e.errMessage }

/-- The save step of `GCloudUploadService.upload` after the overwrite check. -/
def gcloudSave (config : UploadServiceConfig) (env : GCloudEnv) (bufferSize : Nat)
    (filename key contentType bucket : String) (args : UploadImageArgs) :
    List UploadCall × Except McpError UploadResult :=
  match env.save with
  | Except.error nm =>
      ([UploadCall.save bucket key contentType args.public],
       gcloudWrap (Except.error (JsError.generic nm.1 nm.2)))
  | Except.ok _ =>
      ([UploadCall.save bucket key contentType args.public],
       Except.ok { url := GCloudUploadService.generateUrl config key
                   filename := filename
                   size := bufferSize
                   format := fileExtension
                   service := "gcloud"
                   metaBucket := config.bucket
                   metaKey := some key
                   metaProjectId := config.projectId })
where fileExtension := fileExtensionOf filename

/-- `GCloudUploadService.upload`: probes with `file.exists()` (an existence
boolean, not an error-name convention) unless `overwrite` is set, then saves.
A probe or save exception reaches the outer catch and is wrapped as
`InternalError` whatever its name. -/
def GCloudUploadService.upload (config : UploadServiceConfig) (env : GCloudEnv)
    (bufferSize : Nat) (filename : String) (args : UploadImageArgs) :
    List UploadCall × Except McpError UploadResult :=
  let key := objectKey args.folder filename
  let fileExtension := fileExtensionOf filename
  let contentType := getContentType fileExtension
  let bucket := config.bucket.getD ""
  if !args.overwrite then
    match env.existsRes with
    | Except.error nm =>
        ([UploadCall.existsQuery bucket key],
         gcloudWrap (Except.error (JsError.generic nm.1 nm.2)))
    | Except.ok true =>
        ([UploadCall.existsQuery bucket key],
         Except.error { code := ErrorCode.invalidParams,
                        message := "File " ++ key ++ " already exists. Set overwrite=true to replace it." })
    | Except.ok false =>
        let rest := gcloudSave config env bufferSize filename key contentType bucket args
        (UploadCall.existsQuery bucket key :: rest.1, rest.2)
  else
    gcloudSave config env bufferSize filename key contentType bucket args

/-- `UploadTool.exec` with the chosen backend's upload function passed in
(`BaseUploadService` dispatch): resolve input, generate the filename, upload,
then apply the outermost catch.  Traces record the I/O and network calls. -/
def UploadTool.exec (env : FetchEnv) (nenv : NameEnv)
    (svc : List Nat → String → UploadImageArgs → List UploadCall × Except McpError UploadResult)
    (args : UploadImageArgs) :
    List IOEffect × List UploadCall × Except McpError CallToolResult :=
  match UploadTool.getInputBuffer env args with
  | (effs, Except.error e) =>
      (effs, [], UploadTool.execBoundary (Except.error (JsError.mcp e)))
  | (effs, Except.ok br) =>
      let filename := UploadTool.generateFilename nenv args br.2
      let svcRes := svc br.1 filename args
      match svcRes.2 with
      | Except.error e =>
          (effs, svcRes.1, UploadTool.execBoundary (Except.error (JsError.mcp e)))
      | Except.ok result =>
          (effs, svcRes.1,
           Except.ok { output := ToolOutput.uploadSuccess result.url result.filename
                         result.size result.format result.service
                       isError := false })

/-! ## The resolved transform plan -/

/-- Everything of the transform semantics a request resolves to: the geometry
handed to `.resize`, the ordered filter list, and the encode call (format,
quality, codec) or its failure. -/
structure ResolvedPlan where
  resize : ResizeOptions
  filters : Sharp
  encode : Except McpError EncodeResult
  deriving Repr

def resolvedPlan (args : ResizeImageArgs) (inputFormat : Option String) : ResolvedPlan :=
  { resize := resizeOptions args
    filters := filterList args
    encode := ImageProcessor.formatOutput args inputFormat }

/-- The non-source transform parameters of two requests agree. -/
def sameTransformParams (a b : ResizeImageArgs) : Prop :=
  a.format = b.format ∧ a.width = b.width ∧ a.height = b.height ∧
  a.quality = b.quality ∧ a.fit = b.fit ∧ a.position = b.position ∧
  a.background = b.background ∧ a.withoutEnlargement = b.withoutEnlargement ∧
  a.withoutReduction = b.withoutReduction ∧ a.rotate = b.rotate ∧
  a.flip = b.flip ∧ a.flop = b.flop ∧ a.grayscale = b.grayscale ∧
  a.blur = b.blur ∧ a.sharpen = b.sharpen ∧ a.gamma = b.gamma ∧
  a.negate = b.negate ∧ a.normalize = b.normalize ∧ a.threshold = b.threshold ∧
  a.trim = b.trim ∧ a.outputImage = b.outputImage ∧ a.outputPath = b.outputPath

/-! ## Spec-side definitions for the refinement claims -/

/-- The eleven filter kinds, in the fixed order the spec prescribes. -/
inductive FilterKind
  | rotate | flip | flop | grayscale | blur | sharpen | gamma | negate
  | normalize | threshold | trim
  deriving DecidableEq, Repr

/-- Modelled from the spec: the fixed filter application order. -/
def specFilterOrder : List FilterKind :=
  [FilterKind.rotate, FilterKind.flip, FilterKind.flop, FilterKind.grayscale,
   FilterKind.blur, FilterKind.sharpen, FilterKind.gamma, FilterKind.negate,
   FilterKind.normalize, FilterKind.threshold, FilterKind.trim]

/-- Whether a request makes a filter kind present (the code's truthiness test). -/
def filterPresent (args : ResizeImageArgs) : FilterKind → Bool
  | FilterKind.rotate => truthyNum args.rotate
  | FilterKind.flip => truthyBool args.flip
  | FilterKind.flop => truthyBool args.flop
  | FilterKind.grayscale => truthyBool args.grayscale
  | FilterKind.blur => truthyNum args.blur
  | FilterKind.sharpen => truthyNum args.sharpen
  | FilterKind.gamma => truthyNum args.gamma
  | FilterKind.negate => truthyBool args.negate
  | FilterKind.normalize => truthyBool args.normalize
  | FilterKind.threshold => truthyNum args.threshold
  | FilterKind.trim => truthyBool args.trim

/-- The engine call a present filter kind maps to. -/
def filterCall (args : ResizeImageArgs) : FilterKind → FilterOp
  | FilterKind.rotate => FilterOp.rotate (args.rotate.getD 0)
  | FilterKind.flip => FilterOp.flip
  | FilterKind.flop => FilterOp.flop
  | FilterKind.grayscale => FilterOp.grayscale
  | FilterKind.blur => FilterOp.blur (args.blur.getD 0)
  | FilterKind.sharpen => FilterOp.sharpen (args.sharpen.getD 0)
  | FilterKind.gamma => FilterOp.gamma (args.gamma.getD 0)
  | FilterKind.negate => FilterOp.negate
  | FilterKind.normalize => FilterOp.normalize
  | FilterKind.threshold => FilterOp.threshold (args.threshold.getD 0)
  | FilterKind.trim => FilterOp.trim

/-- Modelled from the spec: the present filters, in the fixed order. -/
def specFilterList (args : ResizeImageArgs) : Sharp :=
  (specFilterOrder.filter (filterPresent args)).map
    (fun k => SharpOp.filter (filterCall args k))

/-- Whether a queued operation is a threshold call. -/
def SharpOp.isThreshold : SharpOp → Bool
  | SharpOp.filter (FilterOp.threshold _) => true
  | _ => false

/-- Whether a queued operation is a rotate call. -/
def SharpOp.isRotate : SharpOp → Bool
  | SharpOp.filter (FilterOp.rotate _) => true
  | _ => false

/-! # Theorems -/

section Lemmas

theorem filter_map_eq_flatMap {α β : Type} (p : α → Bool) (g : α → β) (l : List α) :
    (l.filter p).map g = l.flatMap (fun a => if p a then [g a] else []) := by
  induction l with
  | nil => simp
  | cons a l ih =>
    by_cases h : p a = true <;> simp [List.filter_cons, h, ih]

theorem append_ite {α : Type} (t : List α) (b : Bool) (x : α) :
    (if b then t ++ [x] else t) = t ++ (if b then [x] else []) := by
  cases b <;> simp

theorem all_append_ite {α : Type} (l : List α) (b : Bool) (x : α) (p : α → Bool) :
    ((if b then l ++ [x] else l).all p) = (l.all p && (!b || p x)) := by
  cases b <;> simp [List.all_append]

/-- The transformation chain always factors as the incoming handle followed by
the present filters in source order. -/
theorem applyTransformations_factor (args : ResizeImageArgs) (image : Sharp) :
    ImageProcessor.applyTransformations args image = image ++ specFilterList args := by
  rw [specFilterList, filter_map_eq_flatMap]
  show (if truthyBool args.trim then _ ++ [SharpOp.filter FilterOp.trim] else _) = _
  rw [append_ite, append_ite, append_ite, append_ite, append_ite, append_ite, append_ite,
    append_ite, append_ite, append_ite, append_ite]
  simp only [specFilterOrder, List.flatMap_cons, List.flatMap_nil, filterPresent, filterCall,
    List.append_assoc, List.append_nil]

end Lemmas

/-- C6: the filter operations present in a transform request are applied after
the resize step, in the fixed order rotate, flip, flop, grayscale, blur,
sharpen, gamma, negate, normalize, threshold, trim — exactly those whose
arguments are present (truthy), and the relative order is request-independent:
the queued chain always equals the canonical order filtered by presence. -/
theorem C6_filter_order (args : ResizeImageArgs) (image : Sharp) :
    ImageProcessor.applyTransformations args (ImageProcessor.applyResize args image) =
      image ++ SharpOp.resize (resizeOptions args) ::
        (specFilterOrder.filter (filterPresent args)).map
          (fun k => SharpOp.filter (filterCall args k)) ∧
    filterList args =
      (specFilterOrder.filter (filterPresent args)).map
        (fun k => SharpOp.filter (filterCall args k)) := by
  constructor
  · rw [applyTransformations_factor, ImageProcessor.applyResize, specFilterList]
    simp
  · rw [filterList, applyTransformations_factor, specFilterList]
    simp

/-- C10: the presence test for the filters is JS truthiness, so the schema-valid
value 0 for threshold (range 0 to 255) and the value 0 for rotate are treated
exactly like an absent parameter: the operation is not queued and the resolved
plan is identical to the plan of a request without the parameter. -/
theorem C10_zero_treated_absent (args : ResizeImageArgs) (inputFormat : Option String) :
    resolvedPlan { args with threshold := some 0 } inputFormat =
      resolvedPlan { args with threshold := none } inputFormat ∧
    resolvedPlan { args with rotate := some 0 } inputFormat =
      resolvedPlan { args with rotate := none } inputFormat ∧
    optRange (some 0) 0 255 = true ∧
    schemaValid { threshold := some 0 } = true ∧
    (filterList { args with threshold := some 0 }).all (fun op => !op.isThreshold) = true ∧
    (filterList { args with rotate := some 0 }).all (fun op => !op.isRotate) = true := by
  refine ⟨?_, ?_, by decide, by decide, ?_, ?_⟩
  · simp [resolvedPlan, resizeOptions, filterList, ImageProcessor.applyTransformations,
      ImageProcessor.formatOutput, resolvedFormat, resolvedQuality, truthyNum]
  · simp [resolvedPlan, resizeOptions, filterList, ImageProcessor.applyTransformations,
      ImageProcessor.formatOutput, resolvedFormat, resolvedQuality, truthyNum]
  · simp only [filterList, ImageProcessor.applyTransformations, all_append_ite]
    simp [SharpOp.isThreshold, truthyNum]
  · simp only [filterList, ImageProcessor.applyTransformations, all_append_ite]
    simp [SharpOp.isRotate, truthyNum]

section ValidityLemmas

theorem truthyNum_of_one_le {w : Rat} (h : 1 ≤ w) : truthyNum (some w) = true := by
  simp only [truthyNum, bne_iff_ne, ne_eq]
  intro h0
  rw [h0] at h
  norm_num at h

theorem truthyStr_of_ne {s : String} (h : s ≠ "") : truthyStr (some s) = true := by
  simp only [truthyStr, Bool.not_eq_true']
  rw [Bool.eq_false_iff]
  intro hs
  exact h ((String.isEmpty_iff s).mp hs)

theorem ne_zero_of_one_le {w : Rat} (h : 1 ≤ w) : ¬(w = 0) := by
  intro h0
  rw [h0] at h
  norm_num at h

/-- Unpack the schema facts needed about the geometry arguments. -/
theorem schemaValid_geometry {a : ResizeImageArgs} (h : schemaValid a = true) :
    (∀ w, a.width = some w → 1 ≤ w) ∧ (∀ hv, a.height = some hv → 1 ≤ hv) ∧
    (∀ f, a.fit = some f → f ≠ "") := by
  simp only [schemaValid, Bool.and_eq_true] at h
  obtain ⟨⟨⟨⟨⟨⟨⟨⟨⟨-, hw⟩, hh⟩, -⟩, hf⟩, -⟩, -⟩, -⟩, -⟩, -⟩ := h
  refine ⟨?_, ?_, ?_⟩
  · intro w hww
    rw [hww] at hw
    simp only [optRange, Bool.and_eq_true, decide_eq_true_eq] at hw
    exact hw.1
  · intro hv hhv
    rw [hhv] at hh
    simp only [optRange, Bool.and_eq_true, decide_eq_true_eq] at hh
    exact hh.1
  · intro f hff
    rw [hff] at hf
    rintro rfl
    simp only [optMem] at hf
    exact absurd hf (by decide)

end ValidityLemmas

/-- C2: the resolved resize geometry of a schema-valid transform request:
width alone keeps that width with height unconstrained; height alone is
symmetric; otherwise the defaults 800 and 600 fill the unset dimensions and a
missing fit resolves to "contain", while an explicit fit always passes
through unchanged. -/
theorem C2_resize_geometry (args : ResizeImageArgs) (h : schemaValid args = true) :
    (∀ w, args.width = some w → args.height = none →
       resizeOptions args =
         { width := some w, height := none, fit := args.fit, position := args.position,
           background := args.background, withoutEnlargement := args.withoutEnlargement,
           withoutReduction := args.withoutReduction }) ∧
    (∀ hv, args.height = some hv → args.width = none →
       resizeOptions args =
         { width := none, height := some hv, fit := args.fit, position := args.position,
           background := args.background, withoutEnlargement := args.withoutEnlargement,
           withoutReduction := args.withoutReduction }) ∧
    (args.width = none → args.height = none →
       resizeOptions args =
         { width := some DEFAULT_WIDTH, height := some DEFAULT_HEIGHT,
           fit := if args.fit = none then some "contain" else args.fit,
           position := args.position, background := args.background,
           withoutEnlargement := args.withoutEnlargement,
           withoutReduction := args.withoutReduction }) ∧
    (∀ w hv, args.width = some w → args.height = some hv →
       resizeOptions args =
         { width := some w, height := some hv,
           fit := if args.fit = none then some "contain" else args.fit,
           position := args.position, background := args.background,
           withoutEnlargement := args.withoutEnlargement,
           withoutReduction := args.withoutReduction }) := by
  obtain ⟨hw, hh, hf⟩ := schemaValid_geometry h
  have hfit : (if !truthyStr args.fit then some "contain" else args.fit) =
      (if args.fit = none then some "contain" else args.fit) := by
    cases hfa : args.fit with
    | none => simp [truthyStr]
    | some f => simp [truthyStr_of_ne (hf f hfa)]
  refine ⟨?_, ?_, ?_, ?_⟩
  · intro w hww hhn
    have hwt := truthyNum_of_one_le (hw w hww)
    have hw0 := ne_zero_of_one_le (hw w hww)
    simp [resizeOptions, hww, hhn, hwt, hw0, truthyNum]
  · intro hv hhv hwn
    have hht := truthyNum_of_one_le (hh hv hhv)
    have hh0 := ne_zero_of_one_le (hh hv hhv)
    simp [resizeOptions, hhv, hwn, hht, hh0, truthyNum]
  · intro hwn hhn
    simp only [resizeOptions, hwn, hhn, truthyNum, jsOrNum]
    simp only [← hfit]
    simp [truthyNum, DEFAULT_WIDTH, DEFAULT_HEIGHT]
  · intro w hv hww hhv
    have hwt := truthyNum_of_one_le (hw w hww)
    have hht := truthyNum_of_one_le (hh hv hhv)
    have hw0 : w != 0 := by
      have := hw w hww
      simp only [bne_iff_ne, ne_eq]
      intro h0
      rw [h0] at this
      norm_num at this
    have hh0 : hv != 0 := by
      have := hh hv hhv
      simp only [bne_iff_ne, ne_eq]
      intro h0
      rw [h0] at this
      norm_num at this
    simp only [resizeOptions, hww, hhv, hwt, hht, Bool.not_true, Bool.false_and, if_false,
      Bool.and_false, jsOrNum, if_true, Bool.and_true, ← hfit]
    simp [truthyNum, jsOrNum, hwt, hht, hw0, hh0]

/-- C2 witness: width given alone passes through with height unconstrained. -/
theorem C2_resize_geometry_witness :
    resizeOptions { width := some 100 } =
      { width := some 100, height := none, fit := none, position := none, background := none,
        withoutEnlargement := none, withoutReduction := none } :=
  (C2_resize_geometry { width := some 100 } (by decide)).1 100 rfl rfl

/-- C9: the resolved plan — resize geometry, ordered filter list, output
format and quality — of a transform request does not depend on which source
variant carried the bytes: two requests equal on every non-source field
resolve to the same plan, and the source fields only feed the reported
source kind. -/
theorem C9_source_noninterference (a b : ResizeImageArgs) (inputFormat : Option String)
    (h : sameTransformParams a b) :
    resolvedPlan a inputFormat = resolvedPlan b inputFormat := by
  obtain ⟨h1, h2, h3, h4, h5, h6, h7, h8, h9, h10, h11, h12, h13, h14, h15, h16, h17, h18,
    h19, h20, h21, h22⟩ := h
  simp [resolvedPlan, resizeOptions, filterList, ImageProcessor.applyTransformations,
    ImageProcessor.formatOutput, resolvedFormat, resolvedQuality, h1, h2, h3, h4, h5, h6, h7,
    h8, h9, h10, h11, h12, h13, h14, h15, h16, h17, h18, h19, h20, h21, h22]

/-- C9 witness: a file-sourced and an inline-base64-sourced request with the
same transform parameters resolve to the same plan. -/
theorem C9_source_noninterference_witness :
    resolvedPlan { imagePath := some "a.png", width := some 100, format := some "webp" }
        (some "png") =
      resolvedPlan { base64Image := some "QUJD", width := some 100, format := some "webp" }
        (some "png") :=
  C9_source_noninterference
    { imagePath := some "a.png", width := some 100, format := some "webp" }
    { base64Image := some "QUJD", width := some 100, format := some "webp" }
    (some "png")
    ⟨rfl, rfl, rfl, rfl, rfl, rfl, rfl, rfl, rfl, rfl, rfl, rfl, rfl, rfl, rfl, rfl, rfl,
     rfl, rfl, rfl, rfl, rfl⟩

/-- C8: at the outermost catch of both operations, a classified domain error
(`McpError`) is re-thrown unchanged (never re-wrapped), a generic exception
becomes a non-throwing `isError` result whose text carries the exception's
message, a zod error likewise becomes a non-throwing result, and a successful
body passes through — so no body outcome escapes other than a domain error
handed to the transport layer. -/
theorem C8_boundary (body : Except JsError CallToolResult) :
    (∀ e, body = Except.error (JsError.mcp e) →
       ImageProcessor.execBoundary body = Except.error e ∧
       UploadTool.execBoundary body = Except.error e) ∧
    (∀ n m, body = Except.error (JsError.generic n m) →
       ImageProcessor.execBoundary body =
         Except.ok { output := ToolOutput.text ("Error processing image: " ++ m),
                     isError := true } ∧
       UploadTool.execBoundary body =
         Except.ok { output := ToolOutput.text ("Error uploading image: " ++ m),
                     isError := true }) ∧
    (∀ f, body = Except.error (JsError.zod f) →
       ImageProcessor.execBoundary body =
         Except.ok { output := ToolOutput.text ("Validation error: " ++ f), isError := true } ∧
       UploadTool.execBoundary body =
         Except.ok { output := ToolOutput.text ("Validation error: " ++ f), isError := true }) ∧
    (∀ r, body = Except.ok r →
       ImageProcessor.execBoundary body = Except.ok r ∧
       UploadTool.execBoundary body = Except.ok r) := by
  refine ⟨?_, ?_, ?_, ?_⟩
  · rintro e rfl
    exact ⟨rfl, rfl⟩
  · rintro n m rfl
    exact ⟨rfl, rfl⟩
  · rintro f rfl
    exact ⟨rfl, rfl⟩
  · rintro r rfl
    exact ⟨rfl, rfl⟩

/-- C8 witness: a concrete `InvalidParams` domain error is re-thrown unchanged
by both boundaries. -/
theorem C8_boundary_witness :
    ImageProcessor.execBoundary
        (Except.error (JsError.mcp { code := ErrorCode.invalidParams, message := "bad input" })) =
      Except.error { code := ErrorCode.invalidParams, message := "bad input" } ∧
    UploadTool.execBoundary
        (Except.error (JsError.mcp { code := ErrorCode.invalidParams, message := "bad input" })) =
      Except.error { code := ErrorCode.invalidParams, message := "bad input" } :=
  (C8_boundary
      (Except.error (JsError.mcp { code := ErrorCode.invalidParams, message := "bad input" }))).1
    { code := ErrorCode.invalidParams, message := "bad input" } rfl

/-- C4: the backend URL rules.  Generic S3 without a custom endpoint uses the
amazonaws.com virtual-hosted URL; with a (non-empty) custom endpoint the
path-style URL; R2 prefers a configured custom base URL and otherwise uses
the endpoint path-style URL; GCS always uses storage.googleapis.com. -/
theorem C4_url_rules (config : UploadServiceConfig) (key : String) :
    (∀ b r, config.bucket = some b → config.region = some r → config.endpoint = none →
       S3UploadService.generateUrl config key =
         "https://" ++ b ++ ".s3." ++ r ++ ".amazonaws.com/" ++ key) ∧
    (∀ e b, config.endpoint = some e → e ≠ "" → config.bucket = some b →
       S3UploadService.generateUrl config key = e ++ "/" ++ b ++ "/" ++ key) ∧
    (∀ u, config.baseUrl = some u → u ≠ "" →
       CloudflareUploadService.generateUrl config key = u ++ "/" ++ key) ∧
    (∀ e b, config.baseUrl = none → config.endpoint = some e → config.bucket = some b →
       CloudflareUploadService.generateUrl config key = e ++ "/" ++ b ++ "/" ++ key) ∧
    (∀ b, config.bucket = some b →
       GCloudUploadService.generateUrl config key =
         "https://storage.googleapis.com/" ++ b ++ "/" ++ key) := by
  refine ⟨?_, ?_, ?_, ?_, ?_⟩
  · intro b r hb hr he
    simp [S3UploadService.generateUrl, hb, hr, he, truthyStr, jsTemplate]
  · intro e b he hne hb
    simp [S3UploadService.generateUrl, hb, he, truthyStr_of_ne hne, jsTemplate]
  · intro u hu hne
    simp [CloudflareUploadService.generateUrl, hu, truthyStr_of_ne hne, jsTemplate]
  · intro e b hu he hb
    simp [CloudflareUploadService.generateUrl, hu, he, hb, truthyStr, jsTemplate]
  · intro b hb
    simp [GCloudUploadService.generateUrl, hb, jsTemplate]

/-- C4 witness: the two generic-S3 URL shapes at a concrete configuration. -/
theorem C4_url_rules_witness :
    S3UploadService.generateUrl { bucket := some "b", region := some "r" } "images/a.jpg" =
      "https://b.s3.r.amazonaws.com/images/a.jpg" ∧
    S3UploadService.generateUrl
        { bucket := some "b", region := some "r", endpoint := some "https://x" } "images/a.jpg" =
      "https://x/b/images/a.jpg" := by
  constructor
  · exact (C4_url_rules { bucket := some "b", region := some "r" } "images/a.jpg").1
      "b" "r" rfl rfl rfl
  · exact (C4_url_rules { bucket := some "b", region := some "r", endpoint := some "https://x" }
      "images/a.jpg").2.1 "https://x" "b" rfl (by decide) rfl

/-- C5 counterexample: the claim demands a failure whenever the resolved
output format lies outside the set jpeg, png, webp, avif, but a detected
input format "jpg" (which is in the supported-input allow-list and is not in
that four-element set) resolves to output format "jpg" and encodes
successfully through the jpeg codec. -/
theorem C5_jpg_counterexample :
    resolvedFormat {} (some "jpg") = "jpg" ∧
    SUPPORTED_OUTPUT_FORMATS.contains "jpg" = false ∧
    SUPPORTED_INPUT_FORMATS.contains "jpg" = true ∧
    ImageProcessor.formatOutput {} (some "jpg") =
      Except.ok { codec := "jpeg", quality := 80, mimeType := "image/jpeg",
                  outputFormat := "jpg" } := by
  refine ⟨by decide, by decide, by decide, ?_⟩
  rfl

/-- C5 (amended): the resolved output format is the explicit request format
if given, else the detected input format, else "jpeg"; the resolved quality
is the explicit quality if given, else 80; and the encode step fails with
`InvalidParams` naming the format exactly when the resolved format is outside
jpeg, jpg, png, webp, avif (the source `switch` also accepts the alias
"jpg"). -/
theorem C5_format_quality_amended (args : ResizeImageArgs) (inputFormat : Option String)
    (hfmt : ∀ f, args.format = some f → f ≠ "")
    (hinf : ∀ f, inputFormat = some f → f ≠ "")
    (hq : ∀ q, args.quality = some q → 1 ≤ q) :
    (∀ f, args.format = some f → resolvedFormat args inputFormat = f) ∧
    (∀ f, args.format = none → inputFormat = some f → resolvedFormat args inputFormat = f) ∧
    (args.format = none → inputFormat = none → resolvedFormat args inputFormat = "jpeg") ∧
    (∀ q, args.quality = some q → resolvedQuality args = q) ∧
    (args.quality = none → resolvedQuality args = 80) ∧
    (resolvedFormat args inputFormat ∈ ["jpeg", "jpg", "png", "webp", "avif"] →
       ∀ e, ImageProcessor.formatOutput args inputFormat ≠ Except.error e) ∧
    (resolvedFormat args inputFormat ∉ ["jpeg", "jpg", "png", "webp", "avif"] →
       ImageProcessor.formatOutput args inputFormat =
         Except.error { code := ErrorCode.invalidParams,
                        message := "Unsupported output format: " ++
                          resolvedFormat args inputFormat }) ∧
    (∀ r, ImageProcessor.formatOutput args inputFormat = Except.ok r →
       r.outputFormat = resolvedFormat args inputFormat ∧ r.quality = resolvedQuality args) := by
  refine ⟨?_, ?_, ?_, ?_, ?_, ?_, ?_, ?_⟩
  · intro f hf
    simp [resolvedFormat, jsOrStr, hf, truthyStr_of_ne (hfmt f hf)]
  · intro f hn hf
    have hft := truthyStr_of_ne (hinf f hf)
    rw [resolvedFormat, jsOrStr, hn]
    simp only [truthyStr, if_false]
    rw [jsOrStr, hf, hft]
    simp [hf]
  · intro hn hin
    simp [resolvedFormat, jsOrStr, hn, hin, truthyStr]
  · intro q hqq
    have h1 := hq q hqq
    have h0 : truthyNum (some q) = true := truthyNum_of_one_le h1
    simp [resolvedQuality, jsOrNum, hqq, h0]
  · intro hn
    simp [resolvedQuality, jsOrNum, hn, truthyNum, DEFAULT_QUALITY]
  · intro hmem e
    simp only [List.mem_cons, List.mem_singleton] at hmem
    rcases hmem with h | h | h | h | h | h
    · simp [ImageProcessor.formatOutput, h]
    · simp [ImageProcessor.formatOutput, h]
    · simp [ImageProcessor.formatOutput, h]
    · simp [ImageProcessor.formatOutput, h]
    · simp [ImageProcessor.formatOutput, h]
    · simp at h
  · intro hmem
    simp only [List.mem_cons, List.mem_singleton, not_or] at hmem
    obtain ⟨h1, h2, h3, h4, h5, -⟩ := hmem
    simp [ImageProcessor.formatOutput, h1, h2, h3, h4, h5]
  · intro r hr
    simp only [ImageProcessor.formatOutput] at hr
    split_ifs at hr with h1 h2 h3 h4 <;>
      (simp only [Except.ok.injEq] at hr
       subst hr
       exact ⟨rfl, rfl⟩)

/-- C5 witness: with no explicit format and a detected "tiff" input, the
resolved format is "tiff" and encoding fails naming it. -/
theorem C5_format_quality_witness :
    ImageProcessor.formatOutput {} (some "tiff") =
      Except.error { code := ErrorCode.invalidParams,
                     message := "Unsupported output format: tiff" } := by
  have h := (C5_format_quality_amended {} (some "tiff")
      (by intro f hf; cases hf) (by intro f hf; cases hf; decide)
      (by intro q hqq; cases hqq)).2.2.2.2.2.2.1 (by decide)
  simpa [resolvedFormat, jsOrStr, truthyStr] using h

/-- The environment used by the concrete input-resolution examples. -/
def envC1 : FetchEnv :=
  { readFile := fun _ => Except.ok [1, 2, 3]
    fetchImage := fun _ => Except.ok [4, 5, 6]
    decode64 := fun _ => [7, 8, 9] }

/-- C1 counterexample: a request that sets BOTH a local path and a remote URL
violates "exactly one source" but is not rejected: the tool silently reads
from the path (one file read, no error). -/
theorem C1_multiple_sources_counterexample :
    ImageProcessor.getInputBuffer envC1
        { imagePath := some "a.png", imageUrl := some "http://example.com/b.png" } =
      ([IOEffect.readFile "a.png"], Except.ok [1, 2, 3]) ∧
    UploadTool.getInputBuffer envC1
        { imagePath := some "a.png", imageUrl := some "http://example.com/b.png" } =
      ([IOEffect.readFile "a.png"], Except.ok ([1, 2, 3], some "a.png")) := by
  constructor
  · rfl
  · rfl

/-- C1 (amended): at least one of the three sources must be set (non-empty):
when none is, both tools fail with `InvalidParams` and the exact message,
before any byte is read and before any upload call; when more than one is
set, the request is not rejected — the highest-priority source present
(path, then URL, then inline base64) is the only one consulted. -/
theorem C1_source_selection_amended (env : FetchEnv) (nenv : NameEnv)
    (targs : ResizeImageArgs) (uargs : UploadImageArgs)
    (svc : List Nat → String → UploadImageArgs →
      List UploadCall × Except McpError UploadResult) :
    (truthyStr targs.imagePath = false → truthyStr targs.imageUrl = false →
     truthyStr targs.base64Image = false →
       ImageProcessor.getInputBuffer env targs =
         ([], Except.error { code := ErrorCode.invalidParams,
                             message := "One of imagePath, imageUrl, or base64Image must be provided" })) ∧
    (truthyStr targs.imagePath = true →
       (ImageProcessor.getInputBuffer env targs).1 =
         [IOEffect.readFile (normalizeFilePath (targs.imagePath.getD ""))]) ∧
    (truthyStr targs.imagePath = false → truthyStr targs.imageUrl = true →
       (ImageProcessor.getInputBuffer env targs).1 =
         [IOEffect.httpGet (targs.imageUrl.getD "")]) ∧
    (truthyStr targs.imagePath = false → truthyStr targs.imageUrl = false →
     truthyStr targs.base64Image = true →
       (ImageProcessor.getInputBuffer env targs).1 = [IOEffect.decodeBase64]) ∧
    (truthyStr uargs.imagePath = false → truthyStr uargs.imageUrl = false →
     truthyStr uargs.base64Image = false →
       UploadTool.getInputBuffer env uargs =
         ([], Except.error { code := ErrorCode.invalidParams,
                             message := "One of imagePath, imageUrl, or base64Image must be provided" }) ∧
       UploadTool.exec env nenv svc uargs =
         ([], [],
          Except.error { code := ErrorCode.invalidParams,
                         message := "One of imagePath, imageUrl, or base64Image must be provided" })) := by
  refine ⟨?_, ?_, ?_, ?_, ?_⟩
  · intro h1 h2 h3
    simp [ImageProcessor.getInputBuffer, h1, h2, h3]
  · intro h1
    simp only [ImageProcessor.getInputBuffer, h1, Bool.not_true, Bool.false_and, Bool.and_self,
      Bool.false_eq_true, if_false, if_true]
    cases env.readFile (normalizeFilePath (targs.imagePath.getD "")) <;> rfl
  · intro h1 h2
    simp [ImageProcessor.getInputBuffer, h1, h2]
  · intro h1 h2 h3
    simp [ImageProcessor.getInputBuffer, h1, h2, h3]
  · intro h1 h2 h3
    have hg : UploadTool.getInputBuffer env uargs =
        ([], Except.error { code := ErrorCode.invalidParams,
                            message := "One of imagePath, imageUrl, or base64Image must be provided" }) := by
      simp [UploadTool.getInputBuffer, h1, h2, h3]
    refine ⟨hg, ?_⟩
    simp [UploadTool.exec, hg, UploadTool.execBoundary]

/-- C1 witness: the all-absent request fails with the exact message and an
empty effect trace for the transform tool, and with no upload call for the
upload tool. -/
theorem C1_source_selection_witness :
    ImageProcessor.getInputBuffer envC1 {} =
      ([], Except.error { code := ErrorCode.invalidParams,
                          message := "One of imagePath, imageUrl, or base64Image must be provided" }) ∧
    UploadTool.exec envC1 { timestamp := 0, randomSuffix := "abc" }
        (fun buffer filename args => S3UploadService.upload { bucket := some "b" }
          { head := ProbeOutcome.ok, put := Except.ok {} } buffer.length filename args) {} =
      ([], [],
       Except.error { code := ErrorCode.invalidParams,
                      message := "One of imagePath, imageUrl, or base64Image must be provided" }) := by
  have h := C1_source_selection_amended envC1 { timestamp := 0, randomSuffix := "abc" } {} {}
    (fun buffer filename args => S3UploadService.upload { bucket := some "b" }
      { head := ProbeOutcome.ok, put := Except.ok {} } buffer.length filename args)
  exact ⟨h.1 rfl rfl rfl, (h.2.2.2.2 rfl rfl rfl).2⟩

/-- The GCS environment whose existence probe throws an error named
exactly "NotFound". -/
def gcEnvNotFound : GCloudEnv :=
  { existsRes := Except.error ("NotFound", "no such object"), save := Except.ok () }

/-- C3 counterexample: the claim makes a probe error named `NotFound` the
negative result that lets every upload proceed, but for the GCS backend a
probe error named exactly "NotFound" does NOT let the upload proceed: the
upload fails as `InternalError` and no save/put is attempted (the GCS probe
communicates non-existence through an existence flag, not an error name). -/
theorem C3_probe_counterexample :
    GCloudUploadService.upload { service := "gcloud", bucket := some "b" } gcEnvNotFound 3
        "a.png" {} =
      ([UploadCall.existsQuery "b" "a.png"],
       Except.error { code := ErrorCode.internalError,
                      message := "GCloud upload failed: no such object" }) := by
  rfl

/-- C3 (amended): with overwrite false every backend issues its existence
probe first; an existing object fails the upload with `InvalidParams` naming
the key and instructing to set overwrite, with no put attempted; with
overwrite true no probe is issued.  For the S3-compatible backends a probe
error named exactly NotFound or NoSuchKey is the only probe outcome that
lets the upload proceed and any differently-named probe error surfaces as
`InternalError` without a put; for GCS the probe yields an existence flag —
false lets the upload proceed — and any probe error, whatever its name,
surfaces as `InternalError` without a put. -/
theorem C3_overwrite_probe_amended (config : UploadServiceConfig) (env : S3Env)
    (genv : GCloudEnv) (size : Nat) (filename : String) (args : UploadImageArgs) :
    (args.overwrite = false →
       (S3UploadService.upload config env size filename args).1.head? =
         some (UploadCall.headObject (config.bucket.getD "") (objectKey args.folder filename)) ∧
       (CloudflareUploadService.upload config env size filename args).1.head? =
         some (UploadCall.headObject (config.bucket.getD "") (objectKey args.folder filename)) ∧
       (GCloudUploadService.upload config genv size filename args).1.head? =
         some (UploadCall.existsQuery (config.bucket.getD "") (objectKey args.folder filename))) ∧
    (args.overwrite = false → env.head = ProbeOutcome.ok →
       S3UploadService.upload config env size filename args =
         ([UploadCall.headObject (config.bucket.getD "") (objectKey args.folder filename)],
          Except.error { code := ErrorCode.invalidParams,
                         message := "File " ++ objectKey args.folder filename ++
                           " already exists. Set overwrite=true to replace it." }) ∧
       CloudflareUploadService.upload config env size filename args =
         ([UploadCall.headObject (config.bucket.getD "") (objectKey args.folder filename)],
          Except.error { code := ErrorCode.invalidParams,
                         message := "File " ++ objectKey args.folder filename ++
                           " already exists. Set overwrite=true to replace it." })) ∧
    (args.overwrite = false → genv.existsRes = Except.ok true →
       GCloudUploadService.upload config genv size filename args =
         ([UploadCall.existsQuery (config.bucket.getD "") (objectKey args.folder filename)],
          Except.error { code := ErrorCode.invalidParams,
                         message := "File " ++ objectKey args.folder filename ++
                           " already exists. Set overwrite=true to replace it." })) ∧
    (args.overwrite = true →
       (S3UploadService.upload config env size filename args).1 =
         [UploadCall.putObject (config.bucket.getD "") (objectKey args.folder filename)
            (getContentType (fileExtensionOf filename))] ∧
       (CloudflareUploadService.upload config env size filename args).1 =
         [UploadCall.putObject (config.bucket.getD "") (objectKey args.folder filename)
            (getContentType (fileExtensionOf filename))] ∧
       (GCloudUploadService.upload config genv size filename args).1 =
         [UploadCall.save (config.bucket.getD "") (objectKey args.folder filename)
            (getContentType (fileExtensionOf filename)) args.public]) ∧
    (∀ n m, args.overwrite = false → env.head = ProbeOutcome.errNamed n m →
       (n = "NotFound" ∨ n = "NoSuchKey" →
          (S3UploadService.upload config env size filename args).1 =
            [UploadCall.headObject (config.bucket.getD "") (objectKey args.folder filename),
             UploadCall.putObject (config.bucket.getD "") (objectKey args.folder filename)
               (getContentType (fileExtensionOf filename))] ∧
          (CloudflareUploadService.upload config env size filename args).1 =
            [UploadCall.headObject (config.bucket.getD "") (objectKey args.folder filename),
             UploadCall.putObject (config.bucket.getD "") (objectKey args.folder filename)
               (getContentType (fileExtensionOf filename))]) ∧
       (n ≠ "NotFound" → n ≠ "NoSuchKey" →
          S3UploadService.upload config env size filename args =
            ([UploadCall.headObject (config.bucket.getD "") (objectKey args.folder filename)],
             Except.error { code := ErrorCode.internalError,
                            message := "S3 upload failed: " ++ m }) ∧
          CloudflareUploadService.upload config env size filename args =
            ([UploadCall.headObject (config.bucket.getD "") (objectKey args.folder filename)],
             Except.error { code := ErrorCode.internalError,
                            message := "Cloudflare R2 upload failed: " ++ m }))) ∧
    (∀ n m, args.overwrite = false → genv.existsRes = Except.error (n, m) →
       GCloudUploadService.upload config genv size filename args =
         ([UploadCall.existsQuery (config.bucket.getD "") (objectKey args.folder filename)],
          Except.error { code := ErrorCode.internalError,
                         message := "GCloud upload failed: " ++ m })) ∧
    (args.overwrite = false → genv.existsRes = Except.ok false →
       (GCloudUploadService.upload config genv size filename args).1 =
         UploadCall.existsQuery (config.bucket.getD "") (objectKey args.folder filename) ::
           (gcloudSave config genv size filename (objectKey args.folder filename)
             (getContentType (fileExtensionOf filename)) (config.bucket.getD "") args).1 ∧
       (gcloudSave config genv size filename (objectKey args.folder filename)
          (getContentType (fileExtensionOf filename)) (config.bucket.getD "") args).1 =
         [UploadCall.save (config.bucket.getD "") (objectKey args.folder filename)
            (getContentType (fileExtensionOf filename)) args.public]) := by
  refine ⟨?_, ?_, ?_, ?_, ?_, ?_, ?_⟩
  · intro ho
    cases hh : env.head with
    | ok =>
      refine ⟨?_, ?_, ?_⟩
      · simp [S3UploadService.upload, s3OverwriteGuard, ho, hh, JsError.errName]
      · simp [CloudflareUploadService.upload, s3OverwriteGuard, ho, hh, JsError.errName]
      · cases hg : genv.existsRes with
        | error nm => simp [GCloudUploadService.upload, ho, hg]
        | ok b => cases b <;> simp [GCloudUploadService.upload, ho, hg]
    | errNamed n m =>
      refine ⟨?_, ?_, ?_⟩
      · by_cases hn : (n != "NotFound" && n != "NoSuchKey") = true
        · simp [S3UploadService.upload, s3OverwriteGuard, ho, hh, JsError.errName, hn]
        · cases hp : env.put <;>
            simp [S3UploadService.upload, s3OverwriteGuard, ho, hh, JsError.errName, hn, hp]
      · by_cases hn : (n != "NotFound" && n != "NoSuchKey") = true
        · simp [CloudflareUploadService.upload, s3OverwriteGuard, ho, hh, JsError.errName, hn]
        · cases hp : env.put <;>
            simp [CloudflareUploadService.upload, s3OverwriteGuard, ho, hh, JsError.errName,
              hn, hp]
      · cases hg : genv.existsRes with
        | error nm => simp [GCloudUploadService.upload, ho, hg]
        | ok b => cases b <;> simp [GCloudUploadService.upload, ho, hg]
  · intro ho hh
    constructor
    · simp [S3UploadService.upload, s3OverwriteGuard, ho, hh, JsError.errName, s3Wrap]
    · simp [CloudflareUploadService.upload, s3OverwriteGuard, ho, hh, JsError.errName,
        cloudflareWrap]
  · intro ho hg
    simp [GCloudUploadService.upload, ho, hg]
  · intro ho
    refine ⟨?_, ?_, ?_⟩
    · cases hp : env.put with
      | error nm => simp [S3UploadService.upload, s3OverwriteGuard, ho, hp]
      | ok resp => simp [S3UploadService.upload, s3OverwriteGuard, ho, hp]
    · cases hp : env.put with
      | error nm => simp [CloudflareUploadService.upload, s3OverwriteGuard, ho, hp]
      | ok resp => simp [CloudflareUploadService.upload, s3OverwriteGuard, ho, hp]
    · cases hs : genv.save with
      | error nm => simp [GCloudUploadService.upload, gcloudSave, ho, hs]
      | ok u => simp [GCloudUploadService.upload, gcloudSave, ho, hs]
  · intro n m ho hh
    constructor
    · intro hn
      have hcond : (n != "NotFound" && n != "NoSuchKey") = false := by
        rcases hn with h | h <;> simp [h]
      constructor
      · cases hp : env.put with
        | error nm => simp [S3UploadService.upload, s3OverwriteGuard, ho, hh, JsError.errName,
            hcond, hp]
        | ok resp => simp [S3UploadService.upload, s3OverwriteGuard, ho, hh, JsError.errName,
            hcond, hp]
      · cases hp : env.put with
        | error nm => simp [CloudflareUploadService.upload, s3OverwriteGuard, ho, hh,
            JsError.errName, hcond, hp]
        | ok resp => simp [CloudflareUploadService.upload, s3OverwriteGuard, ho, hh,
            JsError.errName, hcond, hp]
    · intro hn1 hn2
      have hcond : (n != "NotFound" && n != "NoSuchKey") = true := by
        simp [hn1, hn2]
      constructor
      · simp [S3UploadService.upload, s3OverwriteGuard, ho, hh, JsError.errName, hcond, s3Wrap,
          JsError.errMessage]
      · simp [CloudflareUploadService.upload, s3OverwriteGuard, ho, hh, JsError.errName, hcond,
          cloudflareWrap, JsError.errMessage]
  · intro n m ho hg
    simp [GCloudUploadService.upload, ho, hg, gcloudWrap, JsError.errMessage]
  · intro ho hg
    constructor
    · simp [GCloudUploadService.upload, ho, hg]
    · cases hs : genv.save with
      | error nm => simp [gcloudSave, hs]
      | ok u => simp [gcloudSave, hs]

/-- C3 witness: with overwrite false and a probe that finds the object, the
S3 upload fails naming the key, with the probe as its only call. -/
theorem C3_overwrite_probe_witness :
    S3UploadService.upload { bucket := some "b" }
        { head := ProbeOutcome.ok, put := Except.ok {} } 3 "photo.jpg"
        { folder := some "2024" } =
      ([UploadCall.headObject "b" "2024/photo.jpg"],
       Except.error { code := ErrorCode.invalidParams,
                      message := "File 2024/photo.jpg already exists. Set overwrite=true to replace it." }) :=
  ((C3_overwrite_probe_amended { bucket := some "b" }
      { head := ProbeOutcome.ok, put := Except.ok {} }
      { existsRes := Except.ok false, save := Except.ok () } 3 "photo.jpg"
      { folder := some "2024" }).2.1 rfl rfl).1

/-- C7 counterexample: for the filename "photo." the substring after the last
"." is empty, so the claim predicts extension "" and content type
application/octet-stream — but the code falls back to "jpg" / image/jpeg; and
for an empty-string folder the claim predicts key "/photo." while the code
(JS truthiness) ignores the empty folder. -/
theorem C7_key_extension_counterexample :
    fileExtensionOf "photo." = "jpg" ∧
    fileExtensionOf "photo." ≠ "" ∧
    getContentType (fileExtensionOf "photo.") = "image/jpeg" ∧
    getContentType (fileExtensionOf "photo.") ≠ "application/octet-stream" ∧
    jsSplit "photo." '.' = ["photo", ""] ∧
    objectKey (some "") "photo." = "photo." ∧
    objectKey (some "") "photo." ≠ "" ++ "/" ++ "photo." := by
  refine ⟨rfl, by decide, rfl, by decide, rfl, rfl, by decide⟩

theorem isEmpty_eq_false_of_ne {s : String} (h : s ≠ "") : s.isEmpty = false := by
  rw [Bool.eq_false_iff]
  intro hs
  exact h ((String.isEmpty_iff s).mp hs)

/-- C7 (amended): the object key is folder + "/" + filename when a non-empty
folder is given and filename otherwise; the extension is the substring after
the last "." of the filename, lower-cased, defaulting to "jpg" when the
filename contains no "." or that substring is empty; the content type is the
extension mapped through the fixed table, so a filename ending in .PNG in
any letter case yields image/png and an unknown extension yields
application/octet-stream; a successful upload reports that extension as its
format. -/
theorem C7_key_extension_amended (folder : Option String) (filename : String) :
    (∀ f, folder = some f → f ≠ "" → objectKey folder filename = f ++ "/" ++ filename) ∧
    (folder = none → objectKey folder filename = filename) ∧
    (folder = some "" → objectKey folder filename = filename) ∧
    ((jsSplit filename '.').length > 1 →
       jsToLowerCase ((jsSplit filename '.').getLastD "") ≠ "" →
       fileExtensionOf filename = jsToLowerCase ((jsSplit filename '.').getLastD "")) ∧
    (¬((jsSplit filename '.').length > 1) → fileExtensionOf filename = "jpg") ∧
    (jsToLowerCase ((jsSplit filename '.').getLastD "") = "" →
       fileExtensionOf filename = "jpg") ∧
    (∀ config env size args r,
       (S3UploadService.upload config env size filename args).2 = Except.ok r →
         r.format = fileExtensionOf filename) ∧
    getContentType "jpg" = "image/jpeg" ∧ getContentType "jpeg" = "image/jpeg" ∧
    getContentType "png" = "image/png" ∧ getContentType "gif" = "image/gif" ∧
    getContentType "webp" = "image/webp" ∧ getContentType "avif" = "image/avif" ∧
    getContentType "tiff" = "image/tiff" ∧ getContentType "heic" = "image/heic" ∧
    getContentType "heif" = "image/heif" ∧
    getContentType "xyz" = "application/octet-stream" ∧
    fileExtensionOf "a.PNG" = "png" ∧
    getContentType (fileExtensionOf "a.PNG") = "image/png" ∧
    fileExtensionOf "a.PnG" = "png" := by
  refine ⟨?_, ?_, ?_, ?_, ?_, ?_, ?_,
    rfl, rfl, rfl, rfl, rfl, rfl, rfl, rfl, rfl, rfl, rfl, rfl, rfl⟩
  · intro f hf hne
    simp [objectKey, hf, truthyStr_of_ne hne]
  · intro hf
    simp [objectKey, hf, truthyStr]
  · intro hf
    have ht : truthyStr (some "") = false := by decide
    simp [objectKey, hf, ht]
  · intro hlen hne
    have he := isEmpty_eq_false_of_ne hne
    simp only [List.getLastD_eq_getLast?] at he
    simp [fileExtensionOf, hlen, List.getLastD_eq_getLast?, he]
  · intro hlen
    simp [fileExtensionOf, hlen]
  · intro hemp
    by_cases hlen : (jsSplit filename '.').length > 1
    · simp only [List.getLastD_eq_getLast?] at hemp
      simp [fileExtensionOf, hlen, List.getLastD_eq_getLast?, hemp]
      decide
    · simp [fileExtensionOf, hlen]
  · intro config env size args r hr
    simp only [S3UploadService.upload] at hr
    rcases hguard : (s3OverwriteGuard (config.bucket.getD "") (objectKey args.folder filename)
        args.overwrite env.head).2 with e | u
    · rw [hguard] at hr
      cases he : e <;> simp [s3Wrap, he] at hr
    · rw [hguard] at hr
      cases hp : env.put with
      | error nm => rw [hp] at hr; simp [s3Wrap] at hr
      | ok resp =>
        rw [hp] at hr
        simp only [Except.ok.injEq] at hr
        subst hr
        rfl

/-- C7 witness: a non-empty folder joins with "/"; .PNG maps to image/png. -/
theorem C7_key_extension_witness :
    objectKey (some "2024") "photo.jpg" = "2024/photo.jpg" ∧
    getContentType (fileExtensionOf "a.PNG") = "image/png" := by
  have h := C7_key_extension_amended (some "2024") "photo.jpg"
  exact ⟨h.1 "2024" rfl (by decide), h.2.2.2.2.2.2.2.2.2.2.2.2.2.2.2.2.2.2.1⟩

end ImageWorker

